import Mathlib

/-!
Shallow embedding of the WhatsApp voice-note transcriber webhook service
(`main.py`): a Flask app whose `/webhook` handler parses the inbound form,
downloads and normalizes an audio attachment, transcribes it, replies to the
sender, and cleans up its temporary files; a `/status` handler acknowledges
delivery callbacks; a decorator validates provider signatures.

External collaborators (HTTP download, audio decode, the speech model, the
provider send API) are modelled as stubbed results threaded through the
handler, and the filesystem of temporary artifacts as a list of file names,
so that every control path of the handler is represented explicitly.
-/

namespace WaTranscriber

/-- Python `str.split(sep)` followed by indexing `[i]`: `IndexError` when the
index is out of range, modelled as `Except`. -/
def pyIndex (xs : List String) (i : Nat) : Except String String :=
  if h : i < xs.length then Except.ok (xs.get ⟨i, h⟩)
  else Except.error "list index out of range"

/-- Digits of a decimal literal folded into a `Nat`. -/
def digitsToNat (cs : List Char) : Nat :=
  cs.foldl (fun a c => a * 10 + (c.toNat - 48)) 0

/-- A nonempty all-digit character list parses; anything else does not. -/
def parseDigits (cs : List Char) : Option Nat :=
  if cs.isEmpty then none
  else if cs.all Char.isDigit then some (digitsToNat cs) else none

/-- Python `int(s)` on a string: surrounding spaces stripped, optional sign,
then decimal digits; otherwise `ValueError`, modelled as `Except.error`. -/
def pyInt (s : String) : Except String Int :=
  let stripped :=
    ((s.toList.dropWhile (fun c => c == ' ')).reverse.dropWhile
      (fun c => c == ' ')).reverse
  match stripped with
  | '-' :: rest =>
    match parseDigits rest with
    | some n => Except.ok (-(n : Int))
    | none => Except.error ("invalid literal for int() with base 10: " ++ s)
  | '+' :: rest =>
    match parseDigits rest with
    | some n => Except.ok (n : Int)
    | none => Except.error ("invalid literal for int() with base 10: " ++ s)
  | cs =>
    match parseDigits cs with
    | some n => Except.ok (n : Int)
    | none => Except.error ("invalid literal for int() with base 10: " ++ s)

/-- Split a character list at every occurrence of the separator; the empty
list yields one empty group, matching Python `str.split` with an explicit
separator. -/
def splitChar : List Char → Char → List (List Char)
  | [], _ => [[]]
  | c :: rest, sep =>
    match splitChar rest sep with
    | [] => if c == sep then [[], []] else [[c]]
    | g :: gs => if c == sep then [] :: g :: gs else (c :: g) :: gs

/-- Python `s.split(sep)` for a one-character separator. -/
def pySplit (s : String) (sep : Char) : List String :=
  (splitChar s.toList sep).map (fun cs => String.mk cs)

/-- `needle` occurs as a contiguous run of `haystack`. -/
def listInfixOf (needle : List Char) : List Char → Bool
  | [] => needle.isEmpty
  | c :: rest => needle.isPrefixOf (c :: rest) || listInfixOf needle rest

/-- Python `needle in haystack` on strings: substring containment. -/
def strContains (haystack needle : String) : Bool :=
  listInfixOf needle.toList haystack.toList

/-- An inbound HTTP request as the handler sees it: the request URL, the
headers, the form fields and the query-string arguments (Flask's
`request.form` and `request.args`). -/
structure Req where
  url : String
  headers : List (String × String)
  form : List (String × String)
  args : List (String × String)

/-- First binding of a key in a key-value list (a Werkzeug `MultiDict` get). -/
def lookupKV (kvs : List (String × String)) (k : String) : Option String :=
  match kvs.find? (fun p => p.1 == k) with
  | some p => some p.2
  | none => none

/-- Flask `request.values` lookup: args take precedence over form fields. -/
def valuesOpt (req : Req) (k : String) : Option String :=
  match lookupKV req.args k with
  | some v => some v
  | none => lookupKV req.form k

/-- Flask `request.values.get(k, d)` with a string default. -/
def valuesGet (req : Req) (k d : String) : String :=
  match valuesOpt req k with
  | some v => v
  | none => d

/-- Flask `request.headers.get(k, d)`. -/
def headersGet (req : Req) (k d : String) : String :=
  match lookupKV req.headers k with
  | some v => v
  | none => d

/-- Replace the first binding of `k` in a key-value list, or append it. -/
def setKV : List (String × String) → String → String → List (String × String)
  | [], k, v => [(k, v)]
  | (k0, v0) :: rest, k, v =>
    if k0 == k then (k0, v) :: rest else (k0, v0) :: setKV rest k v

/-- The same request with the form field `Body` set to `b`. -/
def withBody (req : Req) (b : String) : Req :=
  ⟨req.url, req.headers, setKV req.form "Body" b, req.args⟩

/-- Stubbed results of the external collaborators for one request:
the authenticated media GET (`requests.get` plus `raise_for_status`),
the OGG decode (`AudioSegment.from_ogg` and the WAV export), the Whisper
transcription, the Twilio message send, and the configured sender number
from the environment. -/
structure Stubs where
  httpGet : Except String Unit
  decode : Except String Unit
  transcribeResult : Except String String
  sendResult : Except String String
  twilioWhatsAppNumber : String

/-- Fixed temporary file name for the downloaded encoded audio. -/
def tempOgg : String := "temp_audio.ogg"

/-- Fixed temporary file name for the normalized audio. -/
def tempWav : String := "temp_audio.wav"

/-- Writing a file: the path now exists (overwriting is idempotent here). -/
def fsCreate (fs : List String) (f : String) : List String :=
  if f ∈ fs then fs else f :: fs

/-- Python `os.remove`: deletes the path, `FileNotFoundError` if absent. -/
def fsRemove (fs : List String) (f : String) : Except String (List String) :=
  if f ∈ fs then Except.ok (fs.filter (fun g => g != f))
  else Except.error ("FileNotFoundError: " ++ f)

/-- `download_audio(url)`: authenticated GET (any network or status error
propagates with no file written), then the encoded bytes are persisted to
`temp_audio.ogg`, decoded, and exported to `temp_audio.wav`; the WAV path is
returned. Result: (outcome, URLs fetched, filesystem after the call). -/
def download_audio (st : Stubs) (url : String) (fs : List String) :
    Except String String × List String × List String :=
  match st.httpGet with
  | Except.error e => (Except.error e, [url], fs)
  | Except.ok _ =>
    let fs1 := fsCreate fs tempOgg
    match st.decode with
    | Except.error e => (Except.error e, [url], fs1)
    | Except.ok _ =>
      let fs2 := fsCreate fs1 tempWav
      (Except.ok tempWav, [url], fs2)

/-- Observable side effects of one `/webhook` invocation: media URLs fetched,
audio files handed to the transcriber, and send-API invocations as
(body, from number, to number). -/
structure Effects where
  downloads : List String
  transcribes : List String
  sends : List (String × String × String)

/-- Outcome of one `/webhook` invocation: HTTP body and status, the
side effects performed, and the filesystem after the handler returns. -/
structure WebhookOut where
  body : String
  status : Nat
  effects : Effects
  fs : List String

/-- `request.values.get('From', '').split(':')[1]`: the sender identifier,
or the `IndexError` text when the field is absent or has no separator. -/
def parseSender (req : Req) : Except String String :=
  pyIndex (pySplit (valuesGet req "From" "") ':') 1

/-- `int(request.values.get('NumMedia', 0))`: the default is already the
integer 0, so only a present, non-integer field raises. -/
def parseNumMedia (req : Req) : Except String Int :=
  match valuesOpt req "NumMedia" with
  | none => Except.ok 0
  | some s => pyInt s

/-- The `/webhook` handler. The outer `try` turns field-parsing errors into
`(str(e), 500)`; with media present and an audio content type, the inner
`try` runs download → transcribe → send → cleanup and turns any stage error
into `(str(e), 500)`; every other path returns `("OK", 200)`. -/
def webhook (st : Stubs) (req : Req) (fs : List String) : WebhookOut :=
  let _incoming_msg := valuesGet req "Body" ""
  match parseSender req with
  | Except.error e => ⟨e, 500, ⟨[], [], []⟩, fs⟩
  | Except.ok sender =>
    match parseNumMedia req with
    | Except.error e => ⟨e, 500, ⟨[], [], []⟩, fs⟩
    | Except.ok num_media =>
      if 0 < num_media then
        let media_type := valuesGet req "MediaContentType0" ""
        if strContains media_type "audio" then
          let media_url := valuesGet req "MediaUrl0" ""
          match download_audio st media_url fs with
          | (Except.error e, dls, fs1) => ⟨e, 500, ⟨dls, [], []⟩, fs1⟩
          | (Except.ok audio_file, dls, fs1) =>
            match st.transcribeResult with
            | Except.error e => ⟨e, 500, ⟨dls, [audio_file], []⟩, fs1⟩
            | Except.ok transcription =>
              let from_number := "whatsapp:" ++ st.twilioWhatsAppNumber
              let to_number := "whatsapp:" ++ sender
              match st.sendResult with
              | Except.error e =>
                ⟨e, 500,
                  ⟨dls, [audio_file], [(transcription, from_number, to_number)]⟩,
                  fs1⟩
              | Except.ok _sid =>
                match fsRemove fs1 tempOgg with
                | Except.error e =>
                  ⟨e, 500,
                    ⟨dls, [audio_file],
                      [(transcription, from_number, to_number)]⟩,
                    fs1⟩
                | Except.ok fs2 =>
                  match fsRemove fs2 tempWav with
                  | Except.error e =>
                    ⟨e, 500,
                      ⟨dls, [audio_file],
                        [(transcription, from_number, to_number)]⟩,
                      fs2⟩
                  | Except.ok fs3 =>
                    ⟨"OK", 200,
                      ⟨dls, [audio_file],
                        [(transcription, from_number, to_number)]⟩,
                      fs3⟩
        else ⟨"OK", 200, ⟨[], [], []⟩, fs⟩
      else ⟨"OK", 200, ⟨[], [], []⟩, fs⟩

/-- The `/status` handler: reads `MessageSid` and `MessageStatus` with
defaults, logs, and returns `("OK", 200)`; it touches no pipeline state. -/
def message_status (req : Req) (fs : List String) :
    (String × Nat) × List String :=
  let _message_sid := valuesGet req "MessageSid" ""
  let _message_status := valuesGet req "MessageStatus" ""
  (("OK", 200), fs)

/-- Result of a route guarded by the validator: either the wrapped handler's
response, or an `abort(status)`. -/
inductive RouteResult
  | normal (body : String) (status : Nat)
  | aborted (status : Nat)
deriving DecidableEq

/-- The provider SDK's `RequestValidator.validate`, per its contract: true
exactly when the provided signature equals the canonical signature computed
from the request URL and form parameters under the shared secret (the
canonical computation is the opaque parameter `computeSig`). -/
def mkTwilioValidator (computeSig : String → List (String × String) → String) :
    String → List (String × String) → String → Bool :=
  fun url params sig => sig == computeSig url params

/-- The `validate_twilio_request` decorator: reads the `X-Twilio-Signature`
header (empty string when absent), the request URL and the form data; on
validation failure it aborts with 403 before the wrapped handler runs. -/
def validate_twilio_request
    (validate : String → List (String × String) → String → Bool)
    (f : Req → String × Nat) (req : Req) : RouteResult :=
  let twilio_signature := headersGet req "X-Twilio-Signature" ""
  let url := req.url
  let form_data := req.form
  if validate url form_data twilio_signature then
    RouteResult.normal (f req).1 (f req).2
  else
    RouteResult.aborted 403

/-! ### Helper lemmas -/

theorem mem_fsCreate_self (fs : List String) (f : String) : f ∈ fsCreate fs f := by
  unfold fsCreate
  split
  · assumption
  · exact List.mem_cons_self f fs

theorem mem_fsCreate_of_mem (fs : List String) (f g : String) (h : g ∈ fs) :
    g ∈ fsCreate fs f := by
  unfold fsCreate
  split
  · exact h
  · exact List.mem_cons_of_mem f h

theorem fsRemove_of_mem (fs : List String) (f : String) (h : f ∈ fs) :
    fsRemove fs f = Except.ok (fs.filter (fun g => g != f)) := by
  simp [fsRemove, h]

theorem not_mem_filter_ne_self (fs : List String) (f : String) :
    f ∉ fs.filter (fun g => g != f) := by
  simp [List.mem_filter]

theorem mem_filter_ne_iff (fs : List String) (f g : String) (h : g ≠ f) :
    g ∈ fs.filter (fun x => x != f) ↔ g ∈ fs := by
  simp [List.mem_filter, h]

/-! ### Claim theorems -/

/-- C9: every `POST /status` request — whatever the `MessageSid` and
`MessageStatus` fields hold, or whether they are present at all, and for any
filesystem state — is answered `200 "OK"` and leaves all state untouched. -/
theorem c9_status_always_ok (req : Req) (fs : List String) :
    message_status req fs = (("OK", 200), fs) := rfl

/-- C2: for any handler guarded by the signature validator, when the provided
signature (the `X-Twilio-Signature` header, the empty string when the header
is missing, so a missing header takes the same rejection path rather than
crashing) differs from the canonical signature computed from the request URL
and form parameters, the request is answered with an HTTP 403 abort, and the
result is independent of the wrapped handler — the handler never executes. -/
theorem c2_signature_guard_rejects
    (computeSig : String → List (String × String) → String)
    (f g : Req → String × Nat) (req : Req)
    (h : headersGet req "X-Twilio-Signature" "" ≠ computeSig req.url req.form) :
    validate_twilio_request (mkTwilioValidator computeSig) f req =
      RouteResult.aborted 403 ∧
    validate_twilio_request (mkTwilioValidator computeSig) f req =
      validate_twilio_request (mkTwilioValidator computeSig) g req := by
  have hb : (headersGet req "X-Twilio-Signature" "" ==
      computeSig req.url req.form) = false := beq_eq_false_iff_ne.mpr h
  constructor <;> simp [validate_twilio_request, mkTwilioValidator, hb]

/-- Witness for C2 at a concrete request with no headers at all: the guard
aborts with 403 and the result does not depend on the wrapped handler. -/
theorem c2_signature_guard_rejects_witness :
    validate_twilio_request (mkTwilioValidator (fun _ _ => "canonical"))
      (fun _ => ("handler ran", 200)) ⟨"http://x/webhook", [], [], []⟩ =
      RouteResult.aborted 403 ∧
    validate_twilio_request (mkTwilioValidator (fun _ _ => "canonical"))
      (fun _ => ("handler ran", 200)) ⟨"http://x/webhook", [], [], []⟩ =
    validate_twilio_request (mkTwilioValidator (fun _ _ => "canonical"))
      (fun _ => ("other", 204)) ⟨"http://x/webhook", [], [], []⟩ :=
  c2_signature_guard_rejects (fun _ _ => "canonical")
    (fun _ => ("handler ran", 200)) (fun _ => ("other", 204))
    ⟨"http://x/webhook", [], [], []⟩ (by decide)

/-- C8: the `/webhook` handler is total and every run — whatever the request
fields, the collaborator outcomes and the filesystem — ends in an HTTP
response with status 200 or 500: every pipeline-stage or parsing error is
converted to a response rather than escaping the handler. -/
theorem c8_all_errors_converted (st : Stubs) (req : Req) (fs : List String) :
    (webhook st req fs).status = 200 ∨ (webhook st req fs).status = 500 := by
  unfold webhook download_audio
  dsimp only
  repeat' split
  all_goals simp

/-! ### Concrete fixtures used by witnesses and counterexamples -/

/-- A well-formed audio webhook request. -/
def reqAudio : Req :=
  ⟨"http://host/webhook", [],
    [("From", "whatsapp:+972501234567"), ("NumMedia", "1"),
     ("MediaContentType0", "audio/ogg"), ("MediaUrl0", "http://media/0")], []⟩

/-- Collaborator stubs where every stage succeeds. -/
def stubsAllOk : Stubs :=
  ⟨Except.ok (), Except.ok (), Except.ok "hello world", Except.ok "SM1", "+14155238886"⟩

/-- Collaborator stubs where the media download fails. -/
def stubsDlFail : Stubs :=
  ⟨Except.error "404 Client Error", Except.ok (), Except.ok "hello world",
    Except.ok "SM1", "+14155238886"⟩

/-- Collaborator stubs where transcription fails after a successful download. -/
def stubsTrFail : Stubs :=
  ⟨Except.ok (), Except.ok (), Except.error "model failure", Except.ok "SM1",
    "+14155238886"⟩

/-- A request with `NumMedia = 0` and no `From` field. -/
def reqNoFrom : Req := ⟨"http://host/webhook", [], [("NumMedia", "0")], []⟩

/-- A well-formed request with `NumMedia = 0`. -/
def reqNoMedia : Req :=
  ⟨"http://host/webhook", [],
    [("From", "whatsapp:+15551234"), ("NumMedia", "0")], []⟩

/-- A non-audio media request whose `From` field is missing. -/
def reqNonAudioNoFrom : Req :=
  ⟨"http://host/webhook", [],
    [("NumMedia", "1"), ("MediaContentType0", "image/jpeg")], []⟩

/-- A well-formed non-audio media request. -/
def reqNonAudio : Req :=
  ⟨"http://host/webhook", [],
    [("From", "whatsapp:+15551234"), ("NumMedia", "1"),
     ("MediaContentType0", "image/jpeg")], []⟩

/-- C3: when the media download fails on an audio request, the handler
answers HTTP 500 with the error text as the body and the send API is never
invoked. -/
theorem c3_download_failure_500_no_send
    (st : Stubs) (req : Req) (fs : List String) (sender : String) (n : Int)
    (e : String)
    (hFrom : parseSender req = Except.ok sender)
    (hNum : parseNumMedia req = Except.ok n) (hpos : 0 < n)
    (hAudio : strContains (valuesGet req "MediaContentType0" "") "audio" = true)
    (hDl : st.httpGet = Except.error e) :
    (webhook st req fs).body = e ∧ (webhook st req fs).status = 500 ∧
      (webhook st req fs).effects.sends = [] := by
  unfold webhook download_audio
  dsimp only
  rw [hFrom, hNum]
  simp [hpos, hAudio, hDl]

/-- Witness for C3: a concrete audio request whose download stub fails with
"404 Client Error" yields that text with status 500 and no send. -/
theorem c3_download_failure_500_no_send_witness :
    (webhook stubsDlFail reqAudio []).body = "404 Client Error" ∧
    (webhook stubsDlFail reqAudio []).status = 500 ∧
    (webhook stubsDlFail reqAudio []).effects.sends = [] :=
  c3_download_failure_500_no_send stubsDlFail reqAudio [] "+972501234567" 1
    "404 Client Error" (by rfl) (by rfl) (by decide) (by rfl) (by rfl)

/-- C5: when download, decode and transcription all succeed, the message
handed to the send API carries exactly the transcriber's string as its
body, is sent from the configured sender number with the channel prefix,
and is addressed to the original sender identifier with the channel
prefix. -/
theorem c5_reply_is_exact_transcription
    (st : Stubs) (req : Req) (fs : List String) (sender : String) (n : Int)
    (t : String)
    (hFrom : parseSender req = Except.ok sender)
    (hNum : parseNumMedia req = Except.ok n) (hpos : 0 < n)
    (hAudio : strContains (valuesGet req "MediaContentType0" "") "audio" = true)
    (hGet : st.httpGet = Except.ok ()) (hDec : st.decode = Except.ok ())
    (hTr : st.transcribeResult = Except.ok t) :
    (webhook st req fs).effects.sends =
      [(t, "whatsapp:" ++ st.twilioWhatsAppNumber, "whatsapp:" ++ sender)] := by
  unfold webhook download_audio
  dsimp only
  rw [hFrom, hNum]
  simp only [hpos, if_true, hAudio, hGet, hDec, hTr]
  repeat' split
  all_goals simp

/-- Witness for C5: with a stub transcript "hello world", the send records
exactly that body, from the prefixed configured number to the prefixed
sender. -/
theorem c5_reply_is_exact_transcription_witness :
    (webhook stubsAllOk reqAudio []).effects.sends =
      [("hello world", "whatsapp:+14155238886", "whatsapp:+972501234567")] := by
  have h := c5_reply_is_exact_transcription stubsAllOk reqAudio []
    "+972501234567" 1 "hello world" (by rfl) (by rfl) (by decide) (by decide)
    (by rfl) (by rfl)
  simpa [stubsAllOk] using h

/-- Counterexample to C1 as stated: on an audio request whose transcription
fails, the pipeline reaches a terminal failure state (HTTP 500), yet both
`temp_audio.ogg` and `temp_audio.wav` are still on disk when the handler
returns — the cleanup is reachable only along the success path. -/
theorem c1_counterexample :
    (webhook stubsTrFail reqAudio []).status = 500 ∧
    tempOgg ∈ (webhook stubsTrFail reqAudio []).fs ∧
    tempWav ∈ (webhook stubsTrFail reqAudio []).fs := by decide

/-- C1 amended: when the pipeline run succeeds end to end, the handler
answers HTTP 200 and both the temporary encoded file and the temporary
normalized file are deleted; after a failed run the files created before
the failure remain on disk (see the counterexample). -/
theorem c1_cleanup_on_success
    (st : Stubs) (req : Req) (fs : List String) (sender : String) (n : Int)
    (t sid : String)
    (hFrom : parseSender req = Except.ok sender)
    (hNum : parseNumMedia req = Except.ok n) (hpos : 0 < n)
    (hAudio : strContains (valuesGet req "MediaContentType0" "") "audio" = true)
    (hGet : st.httpGet = Except.ok ()) (hDec : st.decode = Except.ok ())
    (hTr : st.transcribeResult = Except.ok t)
    (hSend : st.sendResult = Except.ok sid) :
    (webhook st req fs).status = 200 ∧
    tempOgg ∉ (webhook st req fs).fs ∧ tempWav ∉ (webhook st req fs).fs := by
  unfold webhook download_audio
  dsimp only
  rw [hFrom, hNum]
  simp only [hpos, if_true, hAudio, hGet, hDec, hTr, hSend]
  have h1 : tempOgg ∈ fsCreate (fsCreate fs tempOgg) tempWav :=
    mem_fsCreate_of_mem _ _ _ (mem_fsCreate_self fs tempOgg)
  rw [fsRemove_of_mem _ _ h1]
  dsimp only
  have h2 : tempWav ∈
      (fsCreate (fsCreate fs tempOgg) tempWav).filter (fun g => g != tempOgg) := by
    rw [mem_filter_ne_iff _ _ _ (by decide)]
    exact mem_fsCreate_self _ _
  rw [fsRemove_of_mem _ _ h2]
  dsimp only
  refine ⟨rfl, ?_, ?_⟩
  · intro hmem
    rw [mem_filter_ne_iff _ _ _ (by decide)] at hmem
    exact not_mem_filter_ne_self _ _ hmem
  · exact not_mem_filter_ne_self _ _

/-- Witness for the amended C1: a fully successful concrete run answers 200
and leaves neither temporary file on disk. -/
theorem c1_cleanup_on_success_witness :
    (webhook stubsAllOk reqAudio []).status = 200 ∧
    tempOgg ∉ (webhook stubsAllOk reqAudio []).fs ∧
    tempWav ∉ (webhook stubsAllOk reqAudio []).fs :=
  c1_cleanup_on_success stubsAllOk reqAudio [] "+972501234567" 1 "hello world"
    "SM1" (by rfl) (by rfl) (by decide) (by decide) (by rfl) (by rfl) (by rfl)
    (by rfl)

/-- Counterexample to C4 as stated: a request whose `NumMedia` field is "0"
but whose `From` field is absent is answered 500 (the `IndexError` from
`split(':')[1]` is caught by the outer handler), not 200. -/
theorem c4_counterexample :
    valuesGet reqNoFrom "NumMedia" "" = "0" ∧
    parseNumMedia reqNoFrom = Except.ok 0 ∧
    (webhook stubsAllOk reqNoFrom []).status = 500 ∧
    (webhook stubsAllOk reqNoFrom []).body = "list index out of range" := by
  refine ⟨by rfl, by rfl, by rfl, by rfl⟩

/-- C4 amended: a `NumMedia = 0` request whose `From` field parses (contains
the channel separator) is answered `200 "OK"` with no download, no
transcription and no send. -/
theorem c4_no_media_returns_ok
    (st : Stubs) (req : Req) (fs : List String) (sender : String)
    (hFrom : parseSender req = Except.ok sender)
    (hNum : parseNumMedia req = Except.ok 0) :
    webhook st req fs = ⟨"OK", 200, ⟨[], [], []⟩, fs⟩ := by
  unfold webhook
  dsimp only
  rw [hFrom, hNum]
  simp

/-- Witness for the amended C4: a concrete well-formed `NumMedia = 0`
request is answered `200 "OK"` with empty effects. -/
theorem c4_no_media_returns_ok_witness :
    webhook stubsAllOk reqNoMedia [] = ⟨"OK", 200, ⟨[], [], []⟩, []⟩ :=
  c4_no_media_returns_ok stubsAllOk reqNoMedia [] "+15551234" (by rfl) (by rfl)

/-- Counterexample to C6 as stated: a request whose `MediaContentType0`
contains no audio indicator but whose `From` field is absent is answered
500, not 200. -/
theorem c6_counterexample :
    strContains (valuesGet reqNonAudioNoFrom "MediaContentType0" "") "audio"
      = false ∧
    (webhook stubsAllOk reqNonAudioNoFrom []).status = 500 := by
  refine ⟨by rfl, by rfl⟩

/-- C6 amended: a request whose `From` and `NumMedia` fields parse and whose
`MediaContentType0` does not contain the substring "audio" is answered
`200 "OK"` with no download, no transcription and no send. -/
theorem c6_non_audio_returns_ok
    (st : Stubs) (req : Req) (fs : List String) (sender : String) (n : Int)
    (hFrom : parseSender req = Except.ok sender)
    (hNum : parseNumMedia req = Except.ok n)
    (hAudio : strContains (valuesGet req "MediaContentType0" "") "audio"
      = false) :
    webhook st req fs = ⟨"OK", 200, ⟨[], [], []⟩, fs⟩ := by
  unfold webhook
  dsimp only
  rw [hFrom, hNum]
  by_cases hp : (0 : Int) < n
  · simp [hp, hAudio]
  · simp [hp]

/-- Witness for the amended C6: a concrete well-formed image-attachment
request is answered `200 "OK"` with empty effects. -/
theorem c6_non_audio_returns_ok_witness :
    webhook stubsAllOk reqNonAudio [] = ⟨"OK", 200, ⟨[], [], []⟩, []⟩ :=
  c6_non_audio_returns_ok stubsAllOk reqNonAudio [] "+15551234" 1 (by rfl)
    (by rfl) (by rfl)

/-- C7: a request whose `From` field is missing or lacks the
channel:identifier separator, or whose `NumMedia` field is present but not
an integer literal, is answered HTTP 500 carrying the parse error text —
not a 400-class response and not a crash (the handler still returns). -/
theorem c7_malformed_fields_500 (st : Stubs) (req : Req) (fs : List String) :
    (∀ e, parseSender req = Except.error e →
      webhook st req fs = ⟨e, 500, ⟨[], [], []⟩, fs⟩) ∧
    (∀ sender e, parseSender req = Except.ok sender →
      parseNumMedia req = Except.error e →
      webhook st req fs = ⟨e, 500, ⟨[], [], []⟩, fs⟩) := by
  constructor
  · intro e he
    unfold webhook
    dsimp only
    rw [he]
  · intro sender e hs he
    unfold webhook
    dsimp only
    rw [hs, he]

/-- Witness for C7: the concrete request with no `From` field is answered
500 with the `IndexError` text as the body. -/
theorem c7_malformed_fields_500_witness :
    webhook stubsAllOk reqNoFrom [] =
      ⟨"list index out of range", 500, ⟨[], [], []⟩, []⟩ :=
  (c7_malformed_fields_500 stubsAllOk reqNoFrom []).1 "list index out of range"
    (by rfl)

theorem lookupKV_setKV_ne (l : List (String × String)) (k k2 v : String)
    (h : k2 ≠ k) : lookupKV (setKV l k v) k2 = lookupKV l k2 := by
  have hk : (k == k2) = false := beq_eq_false_iff_ne.mpr (Ne.symm h)
  induction l with
  | nil => simp [setKV, lookupKV, List.find?, hk]
  | cons p rest ih =>
    obtain ⟨k0, v0⟩ := p
    by_cases h0 : (k0 == k) = true
    · have hek : k0 = k := beq_iff_eq.mp h0
      subst hek
      simp [setKV, lookupKV, List.find?, hk]
    · simp only [setKV, h0, if_false]
      by_cases h2 : (k0 == k2) = true
      · simp [lookupKV, List.find?, h2]
      · simp only [Bool.not_eq_true] at h2
        simp only [lookupKV, List.find?, h2] at ih ⊢
        exact ih

theorem valuesOpt_withBody (req : Req) (b k : String) (h : k ≠ "Body") :
    valuesOpt (withBody req b) k = valuesOpt req k := by
  unfold valuesOpt withBody
  dsimp only
  rw [lookupKV_setKV_ne _ _ _ _ h]

theorem valuesGet_withBody (req : Req) (b k d : String) (h : k ≠ "Body") :
    valuesGet (withBody req b) k d = valuesGet req k d := by
  unfold valuesGet
  rw [valuesOpt_withBody req b k h]

theorem parseSender_withBody (req : Req) (b : String) :
    parseSender (withBody req b) = parseSender req := by
  unfold parseSender
  rw [valuesGet_withBody _ _ _ _ (by decide)]

theorem parseNumMedia_withBody (req : Req) (b : String) :
    parseNumMedia (withBody req b) = parseNumMedia req := by
  unfold parseNumMedia
  rw [valuesOpt_withBody _ _ _ (by decide)]

theorem webhook_ext (st : Stubs) (req1 req2 : Req) (fs : List String)
    (h1 : parseSender req1 = parseSender req2)
    (h2 : parseNumMedia req1 = parseNumMedia req2)
    (h3 : valuesGet req1 "MediaContentType0" "" =
      valuesGet req2 "MediaContentType0" "")
    (h4 : valuesGet req1 "MediaUrl0" "" = valuesGet req2 "MediaUrl0" "") :
    webhook st req1 fs = webhook st req2 fs := by
  unfold webhook
  dsimp only
  rw [h1, h2, h3, h4]

/-- C10: two `/webhook` requests identical except for the value of the
`Body` form field produce the same HTTP response, the same side effects
(downloads, transcriptions, sends) and the same final filesystem: the
message body text has no influence on processing. -/
theorem c10_body_noninterference (st : Stubs) (req : Req) (fs : List String)
    (b1 b2 : String) :
    webhook st (withBody req b1) fs = webhook st (withBody req b2) fs := by
  apply webhook_ext
  · rw [parseSender_withBody, parseSender_withBody]
  · rw [parseNumMedia_withBody, parseNumMedia_withBody]
  · rw [valuesGet_withBody _ _ _ _ (by decide),
      valuesGet_withBody _ _ _ _ (by decide)]
  · rw [valuesGet_withBody _ _ _ _ (by decide),
      valuesGet_withBody _ _ _ _ (by decide)]

end WaTranscriber
